import Mathlib

/-!
Verification of the asset-record persistence/validation layer of the
IT Asset Management System (src/app.py) against its specification.

The program is shallowly embedded: pure fragments of `app.py` become Lean
functions; the pandas/csv/json layers are modelled at cell level (machine
floats appear only through their finite decimal textual form, which is what
the flat file stores); file I/O is modelled as the list of file operations a
function performs.  Dates are `(year, month, day)` triples ordered
lexicographically, exactly as Python `datetime.date` compares; where only the
instant order and day arithmetic matter (the dashboard window) timestamps are
day numbers in `Int`.
-/

namespace ITSM

/-! ### Character and digit utilities -/

/-- The decimal digit character for `d < 10` (codepoint `48 + d`). -/
def digitChar (d : Nat) : Char := Char.ofNat (48 + d)

/-- Numeric value of a decimal digit character. -/
def digitVal (c : Char) : Nat := c.toNat - 48

/-- `true` iff `c` is one of `0`..`9`. -/
def isDigitChar (c : Char) : Bool := 48 ≤ c.toNat && c.toNat ≤ 57

/-- Big-endian decimal digit characters of a positive number, by fuel. -/
def natDigitsAux : Nat → Nat → List Char
  | 0, _ => []
  | fuel + 1, n => if n = 0 then [] else natDigitsAux fuel (n / 10) ++ [digitChar (n % 10)]

/-- Big-endian decimal digit characters of `n` (`"0"` for zero). -/
def natDigits (n : Nat) : List Char :=
  if n = 0 then ['0'] else natDigitsAux n n

/-- Value of a big-endian digit-character list. -/
def readDigits (cs : List Char) : Nat :=
  cs.foldl (fun acc c => acc * 10 + digitVal c) 0

/-- Parse a non-empty all-digit character list. -/
def parseNat (cs : List Char) : Option Nat :=
  if cs ≠ [] ∧ cs.all isDigitChar then some (readDigits cs) else none

/-- Left-pad with `'0'` to width `k`. -/
def padZero (k : Nat) (cs : List Char) : List Char :=
  List.replicate (k - cs.length) '0' ++ cs

/-- The whitespace characters `float()` strips: space, tab, LF, VT, FF, CR. -/
def isPyWs (c : Char) : Bool :=
  decide (c.toNat = 32 ∨ c.toNat = 9 ∨ c.toNat = 10 ∨ c.toNat = 13
    ∨ c.toNat = 11 ∨ c.toNat = 12)

/-- Remove leading and trailing whitespace. -/
def stripWs (cs : List Char) : List Char :=
  ((cs.dropWhile isPyWs).reverse.dropWhile isPyWs).reverse

/-- A character of a numeral's digit run: a digit, or the `_` separator
`float()` accepts between digits. -/
def isNumSepChar (c : Char) : Bool := isDigitChar c || c == '_'

/-- `str.lower` on one character, faithful on the Latin-1 range (codepoints
up to 255): ASCII `A`-`Z` and the Latin-1 uppercase letters map by `+32`
(`×` at 215 is not a letter); every other Latin-1 codepoint is its own
lowercase.  Beyond Latin-1 the real `str.lower` applies the full Unicode
mapping, which this model does not cover — statements about the filter are
therefore scoped to Latin-1 text. -/
def lowerChar (c : Char) : Char :=
  if (65 ≤ c.toNat ∧ c.toNat ≤ 90)
      ∨ (192 ≤ c.toNat ∧ c.toNat ≤ 222 ∧ c.toNat ≠ 215) then
    Char.ofNat (c.toNat + 32)
  else c

/-- Every character is a Latin-1 codepoint (where `lowerChar` matches
`str.lower`). -/
def latin1Str (s : String) : Bool := s.data.all (fun c => decide (c.toNat ≤ 255))

/-- Substring containment on character lists (Python's `needle in hay`).
The empty needle is contained in everything. -/
def containsSub (hay needle : List Char) : Bool :=
  match hay with
  | [] => needle.isEmpty
  | _ :: t => needle.isPrefixOf hay || containsSub t needle

/-- Python `str.strip()`: remove leading and trailing whitespace. -/
def pyStrip (s : String) : String :=
  String.mk (((s.data.dropWhile Char.isWhitespace).reverse.dropWhile
    Char.isWhitespace).reverse)

/-! ### Dates

`datetime.date` values are `(year, month, day)` triples compared
lexicographically.  `pd.to_datetime` / `.dt.strftime('%Y-%m-%d')` become the
`parseDate` / `fmtDate` codec below. -/

structure Date where
  year : Nat
  month : Nat
  day : Nat
deriving DecidableEq, Repr

/-- Python `<=` on `datetime.date`: lexicographic on (year, month, day). -/
def dateLE (a b : Date) : Bool :=
  decide (a.year < b.year) ||
    (a.year == b.year &&
      (decide (a.month < b.month) ||
        (a.month == b.month && decide (a.day ≤ b.day))))

/-- `%Y-%m-%d` formatting, as `save_assets` (src/app.py:109) writes dates. -/
def fmtDate (d : Date) : List Char :=
  padZero 4 (natDigits d.year) ++ '-' :: (padZero 2 (natDigits d.month) ++ '-' :: padZero 2 (natDigits d.day))

def fmtDateS (d : Date) : String := String.mk (fmtDate d)

/-- Bounds under which a `Date` prints as exactly `YYYY-MM-DD`
and denotes a calendar date `pd.to_datetime` accepts. -/
def validDate (d : Date) : Bool :=
  decide (d.year < 10000) && decide (1 ≤ d.month) && decide (d.month ≤ 12) &&
    decide (1 ≤ d.day) && decide (d.day ≤ 31)

def validOptDate : Option Date → Bool
  | none => true
  | some d => validDate d

/-- `pd.to_datetime(_, errors='coerce')` on the fixed `YYYY-MM-DD` textual
form: the date-shaped strings the store itself writes.  (The real coercion
accepts further textual layouts; the backing file only ever holds this one.) -/
def parseDateChars (cs : List Char) : Option Date :=
  let ys := cs.takeWhile isDigitChar
  match cs.dropWhile isDigitChar with
  | c1 :: r2 =>
    if c1 == '-' then
      let ms := r2.takeWhile isDigitChar
      match r2.dropWhile isDigitChar with
      | c2 :: r4 =>
        if c2 == '-' then
          let ds := r4.takeWhile isDigitChar
          if (r4.dropWhile isDigitChar).isEmpty ∧ ys.length = 4 ∧ ms.length = 2 ∧ ds.length = 2 then
            let m := readDigits ms
            let d := readDigits ds
            if 1 ≤ m ∧ m ≤ 12 ∧ 1 ≤ d ∧ d ≤ 31 then some ⟨readDigits ys, m, d⟩ else none
          else none
        else none
      | _ => none
    else none
  | _ => none

def parseDate (s : String) : Option Date := parseDateChars s.data

/-! ### Money

A `float64` cost is carried through the flat file by its finite decimal
expansion; `Money ⟨man, exp⟩` denotes `man × 10 ^ (-exp)` and remembers the
printed shape (`⟨10005, 1⟩` is `"1000.5"`), which is what `to_csv` emits and
`read_csv` reads back.  Costs entered through the form are non-negative
(`st.number_input(min_value=0.0)`). -/

structure Money where
  man : Nat
  exp : Nat
deriving DecidableEq, Repr

/-- Decimal rendering of a cost value, as `to_csv` writes the float. -/
def moneyChars (m : Money) : List Char :=
  if m.exp = 0 then natDigits m.man
  else
    let ds := padZero (m.exp + 1) (natDigits m.man)
    ds.take (ds.length - m.exp) ++ '.' :: ds.drop (ds.length - m.exp)

def moneyStr (m : Money) : String := String.mk (moneyChars m)

/-- Parse a plain decimal numeral (`digits` or `digits.digits`), the float
grammar the store's own output uses. -/
def parseMoney (cs : List Char) : Option Money :=
  let ip := cs.takeWhile isDigitChar
  match cs.dropWhile isDigitChar with
  | [] => if ip.isEmpty then none else some ⟨readDigits ip, 0⟩
  | c :: fp =>
    if c == '.' then
      if ip.isEmpty ∨ fp.isEmpty ∨ ¬ fp.all isDigitChar then none
      else some ⟨readDigits (ip ++ fp), fp.length⟩
    else none

/-! ### The float grammar used for `read_csv` column type inference -/

/-- Strip one leading sign character. -/
def dropSign (cs : List Char) : List Char :=
  match cs with
  | c :: r => if c == '+' || c == '-' then r else cs
  | [] => []

/-- Exponent tail: optional sign, then a digit run (underscores allowed). -/
def expTail (cs : List Char) : Bool :=
  let cs1 := dropSign cs
  cs1.any isDigitChar && cs1.all isNumSepChar

/-- What may follow the mantissa: nothing, or `e`/`E` and an exponent tail. -/
def expPart (cs : List Char) : Bool :=
  match cs with
  | [] => true
  | c :: t => (c == 'e' || c == 'E') && expTail t

/-- Textual values the loading pipeline may coerce to a float: surrounding
whitespace stripped, an optional sign, then `inf`/`infinity`/`nan` (any
case) or a decimal mantissa with optional fraction and exponent, where the
digit runs may carry `_` separators (accepted by `float()`).  This
over-approximates the union of `read_csv`'s numeric sniffing and the
`float()` coercion behind `astype` — deliberately so: its negation is used
to carve out text the program certainly keeps as text, and an
over-approximation only shrinks that certified domain (underscore placement
is not validated). -/
def isPyFloat (cs0 : List Char) : Bool :=
  let cs1 := dropSign (stripWs cs0)
  let low := cs1.map lowerChar
  if low = ['i', 'n', 'f'] ∨ low = ['i', 'n', 'f', 'i', 'n', 'i', 't', 'y'] ∨ low = ['n', 'a', 'n'] then
    true
  else
    let ip := cs1.takeWhile isNumSepChar
    match cs1.dropWhile isNumSepChar with
    | [] => ip.any isDigitChar
    | c :: r2 =>
      if c == '.' then
        let fp := r2.takeWhile isNumSepChar
        (ip.any isDigitChar || fp.any isDigitChar) && expPart (r2.dropWhile isNumSepChar)
      else (c == 'e' || c == 'E') && (ip.any isDigitChar && expTail r2)

/-! ### SHA-256 (`hashlib.sha256`), words as `Nat` reduced mod `2^32` -/

def w32 : Nat := 4294967296

def add32 (a b : Nat) : Nat := (a + b) % w32

/-- Right-rotation of a 32-bit word. -/
def rotr32 (n x : Nat) : Nat := (x >>> n) + ((x % 2 ^ n) <<< (32 - n))

def bsig0 (x : Nat) : Nat := rotr32 2 x ^^^ rotr32 13 x ^^^ rotr32 22 x

def bsig1 (x : Nat) : Nat := rotr32 6 x ^^^ rotr32 11 x ^^^ rotr32 25 x

def ssig0 (x : Nat) : Nat := rotr32 7 x ^^^ rotr32 18 x ^^^ (x >>> 3)

def ssig1 (x : Nat) : Nat := rotr32 17 x ^^^ rotr32 19 x ^^^ (x >>> 10)

def chF (e f g : Nat) : Nat := (e &&& f) ^^^ ((e ^^^ (w32 - 1)) &&& g)

def majF (a b c : Nat) : Nat := (a &&& b) ^^^ (a &&& c) ^^^ (b &&& c)

/-- The 64 SHA-256 round constants of FIPS 180-2 (decimal). -/
def K256 : List Nat :=
  [1116352408, 1899447441, 3049323471, 3921009573, 961987163, 1508970993,
   2453635748, 2870763221, 3624381080, 310598401, 607225278, 1426881987,
   1925078388, 2162078206, 2614888103, 3248222580, 3835390401, 4022224774,
   264347078, 604807628, 770255983, 1249150122, 1555081692, 1996064986,
   2554220882, 2821834349, 2952996808, 3210313671, 3336571891, 3584528711,
   113926993, 338241895, 666307205, 773529912, 1294757372, 1396182291,
   1695183700, 1986661051, 2177026350, 2456956037, 2730485921, 2820302411,
   3259730800, 3345764771, 3516065817, 3600352804, 4094571909, 275423344,
   430227734, 506948616, 659060556, 883997877, 958139571, 1322822218,
   1537002063, 1747873779, 1955562222, 2024104815, 2227730452, 2361852424,
   2428436474, 2756734187, 3204031479, 3329325298]

structure Sha8 where
  a : Nat
  b : Nat
  c : Nat
  d : Nat
  e : Nat
  f : Nat
  g : Nat
  h : Nat

/-- The SHA-256 initial hash value of FIPS 180-2 (decimal). -/
def H0 : Sha8 :=
  ⟨1779033703, 3144134277, 1013904242, 2773480762,
   1359893119, 2600822924, 528734635, 1541459225⟩

def roundStep (s : Sha8) (kw : Nat × Nat) : Sha8 :=
  let t1 := add32 s.h (add32 (bsig1 s.e) (add32 (chF s.e s.f s.g) (add32 kw.1 kw.2)))
  let t2 := add32 (bsig0 s.a) (majF s.a s.b s.c)
  ⟨add32 t1 t2, s.a, s.b, s.c, add32 s.d t1, s.e, s.f, s.g⟩

/-- Extend a 16-word block to the 64-word message schedule (`fuel = 48`). -/
def extendSchedule : Nat → List Nat → List Nat
  | 0, ws => ws
  | k + 1, ws =>
    let i := ws.length
    extendSchedule k
      (ws ++ [add32 (add32 (ssig1 (ws.getD (i - 2) 0)) (ws.getD (i - 7) 0))
        (add32 (ssig0 (ws.getD (i - 15) 0)) (ws.getD (i - 16) 0))])

def compress (H : Sha8) (block : List Nat) : Sha8 :=
  let ws := extendSchedule 48 block
  let s := (K256.zip ws).foldl roundStep H
  ⟨add32 H.a s.a, add32 H.b s.b, add32 H.c s.c, add32 H.d s.d,
   add32 H.e s.e, add32 H.f s.f, add32 H.g s.g, add32 H.h s.h⟩

/-- Group bytes into big-endian 32-bit words. -/
def bytesToWords : List Nat → List Nat
  | b0 :: b1 :: b2 :: b3 :: rest =>
    (b0 * 16777216 + b1 * 65536 + b2 * 256 + b3) :: bytesToWords rest
  | _ => []

/-- 64-byte chunks, by fuel (one unit of fuel per chunk is ample). -/
def chunks64Aux : Nat → List Nat → List (List Nat)
  | 0, _ => []
  | _, [] => []
  | fuel + 1, a :: l => (a :: l).take 64 :: chunks64Aux fuel ((a :: l).drop 64)

/-- 64-byte chunks of a byte list. -/
def chunks64 (l : List Nat) : List (List Nat) :=
  chunks64Aux l.length l

/-- Big-endian 8-byte encoding of the bit length. -/
def be64 (n : Nat) : List Nat :=
  [(n >>> 56) % 256, (n >>> 48) % 256, (n >>> 40) % 256, (n >>> 32) % 256,
   (n >>> 24) % 256, (n >>> 16) % 256, (n >>> 8) % 256, n % 256]

/-- SHA-256 padding: `0x80`, zeros to 56 mod 64, 64-bit big-endian bit count. -/
def padMessage (msg : List Nat) : List Nat :=
  msg ++ 0x80 :: (List.replicate ((119 - msg.length % 64) % 64) 0 ++ be64 (8 * msg.length))

def sha256Words (msg : List Nat) : Sha8 :=
  (chunks64 (padMessage msg)).foldl (fun H blk => compress H (bytesToWords blk)) H0

def hexNibble (n : Nat) : Char :=
  if n < 10 then Char.ofNat (48 + n) else Char.ofNat (87 + n)

def word8Hex (w : Nat) : List Char :=
  [hexNibble ((w >>> 28) % 16), hexNibble ((w >>> 24) % 16), hexNibble ((w >>> 20) % 16),
   hexNibble ((w >>> 16) % 16), hexNibble ((w >>> 12) % 16), hexNibble ((w >>> 8) % 16),
   hexNibble ((w >>> 4) % 16), hexNibble (w % 16)]

/-- UTF-8 encoding of one character (`str.encode()`). -/
def utf8Char (c : Char) : List Nat :=
  let n := c.toNat
  if n < 128 then [n]
  else if n < 2048 then [192 + n / 64, 128 + n % 64]
  else if n < 65536 then [224 + n / 4096, 128 + (n / 64) % 64, 128 + n % 64]
  else [240 + n / 262144, 128 + (n / 4096) % 64, 128 + (n / 64) % 64, 128 + n % 64]

def utf8Bytes (s : String) : List Nat :=
  (s.data.map utf8Char).foldr (· ++ ·) []

/-- Lower-case hex digest of the SHA-256 of a byte list. -/
def sha256Hex (msg : List Nat) : String :=
  let s := sha256Words msg
  String.mk (([s.a, s.b, s.c, s.d, s.e, s.f, s.g, s.h].map word8Hex).foldr (· ++ ·) [])

/-! ### Credential Store (src/app.py:30-55, 157) -/

/-- `hash_password` (src/app.py:31-33): hex sha256 of `"itsm_salt_" + password`. -/
def hash_password (password : String) : String :=
  sha256Hex (utf8Bytes ("itsm_salt_" ++ password))

/-- A minimal JSON value universe for the `users.json` backing file. -/
inductive Json where
  | str : String → Json
  | num : Int → Json
  | obj : List (String × Json) → Json
  | arr : List Json → Json
  | null : Json

def default_users : List (String × String) := [("admin", hash_password "Admin@2024")]

/-- `save_users` (src/app.py:49-55): `json.dump(list(users.values()), f)` —
only the values of the mapping are written; in every caller (src/app.py:157,
366-367, 379-381) those values are the verifier strings. -/
def save_users (users : List (String × String)) : Json :=
  .arr (users.map (fun u => .str u.2))

/-- One step of the comprehension `{user['username']: user['password_hash']
for user in users_data}`.  A non-object element (e.g. a bare string) raises
`TypeError`; an object missing either key raises `KeyError`. -/
def userEntry : Json → Option (String × String)
  | .obj ms =>
    match ms.lookup "username", ms.lookup "password_hash" with
    | some (.str u), some (.str h) => some (u, h)
    | _, _ => none
  | _ => none

/-- Python dict insertion: later pairs with the same key override in place. -/
def dictInsert (m : List (String × String)) (k v : String) : List (String × String) :=
  if (m.map Prod.fst).contains k then m.map (fun p => if p.1 == k then (k, v) else p)
  else m ++ [(k, v)]

def dictOfPairs (ps : List (String × String)) : List (String × String) :=
  ps.foldl (fun m p => dictInsert m p.1 p.2) []

/-- `load_users` (src/app.py:35-47): absent file → bootstrap identity; any
exception while reading/parsing is caught and also yields the bootstrap. -/
def load_users (file : Option Json) : List (String × String) :=
  match file with
  | none => default_users
  | some (.arr xs) =>
    match xs.mapM userEntry with
    | some entries => dictOfPairs entries
    | none => default_users
  | some _ => default_users

/-- The login check (src/app.py:157):
`username in users and users[username] == hash_password(password)`. -/
def authenticate (users : List (String × String)) (username secret : String) : Bool :=
  match users.lookup username with
  | some h => h == hash_password secret
  | none => false

/-! ### Record Store: data model (src/app.py:62-78, 291-307)

Field order matches the fixed column order of `assets.csv`. -/

structure AssetRecord where
  asset_id : String
  name : String
  category : String
  brand : String
  model : String
  serial_no : String
  status : String
  assigned_to : String
  purchase_date : Option Date
  warranty_expiry : Option Date
  location : String
  cost : Money
  notes : String
  created_date : Option Date
  last_updated : Option Date
deriving DecidableEq, Repr

/-- The textual cells of the backing `assets.csv`, one list per column. -/
structure RawTable where
  asset_id : List String
  name : List String
  category : List String
  brand : List String
  model : List String
  serial_no : List String
  status : List String
  assigned_to : List String
  purchase_date : List String
  warranty_expiry : List String
  location : List String
  cost : List String
  notes : List String
  created_date : List String
  last_updated : List String
deriving DecidableEq, Repr

/-- A date cell on the way out: `%Y-%m-%d`, or empty for a missing date
(`to_csv` writes missing values as the empty field). -/
def dateCellOut : Option Date → String
  | some d => fmtDateS d
  | none => ""

/-- `save_assets` (src/app.py:100-116): format the four date columns as
`%Y-%m-%d` and write every column back to `assets.csv` via `to_csv`. -/
def save_assets (rs : List AssetRecord) : RawTable where
  asset_id := rs.map (·.asset_id)
  name := rs.map (·.name)
  category := rs.map (·.category)
  brand := rs.map (·.brand)
  model := rs.map (·.model)
  serial_no := rs.map (·.serial_no)
  status := rs.map (·.status)
  assigned_to := rs.map (·.assigned_to)
  purchase_date := rs.map (fun r => dateCellOut r.purchase_date)
  warranty_expiry := rs.map (fun r => dateCellOut r.warranty_expiry)
  location := rs.map (·.location)
  cost := rs.map (fun r => moneyStr r.cost)
  notes := rs.map (·.notes)
  created_date := rs.map (fun r => dateCellOut r.created_date)
  last_updated := rs.map (fun r => dateCellOut r.last_updated)

/-- A value as it sits in the loaded DataFrame. -/
inductive Cell where
  /-- a text value -/
  | s : String → Cell
  /-- a float64 value carried by its finite decimal form -/
  | num : Money → Cell
  /-- a float64 value whose textual form is outside the plain decimal
  grammar (exponents, infinities); kept as its source text -/
  | numRaw : String → Cell
  /-- a boolean value -/
  | b : Bool → Cell
  /-- a datetime value -/
  | date : Date → Cell
  /-- a missing value: NaN / NaT -/
  | nan : Cell
deriving DecidableEq, Repr

/-- The `read_csv` default missing-value tokens. -/
def defaultNaValues : List String :=
  ["", "#N/A", "#N/A N/A", "#NA", "-1.#IND", "-1.#QNAN", "-NaN", "-nan",
   "1.#IND", "1.#QNAN", "<NA>", "N/A", "NA", "NULL", "NaN", "None",
   "n/a", "nan", "null"]

/-- The textual booleans `read_csv` recognises for bool column inference. -/
def boolTokens : List String := ["True", "TRUE", "False", "FALSE"]

/-- One cell through `read_csv`: missing-value tokens become NaN. -/
def readCell (raw : String) : Cell :=
  if raw ∈ defaultNaValues then .nan else .s raw

def numifyCell : Cell → Cell
  | .s v =>
    match parseMoney v.data with
    | some m => .num m
    | none => .numRaw v
  | c => c

def isFloatCell : Cell → Bool
  | .nan => true
  | .s v => isPyFloat v.data
  | _ => false

def isBoolTokenCell : Cell → Bool
  | .s v => v ∈ boolTokens
  | _ => false

def boolifyCell : Cell → Cell
  | .s v => .b (v == "True" || v == "TRUE")
  | c => c

/-- `read_csv` column type inference: a column whose every entry is a float
numeral (or missing) becomes float64; failing that, a column of bare
`True`/`False` tokens becomes bool; otherwise the cells stay text. -/
def readColumn (raws : List String) : List Cell :=
  let cells := raws.map readCell
  if cells.all isFloatCell then cells.map numifyCell
  else if cells.all isBoolTokenCell then cells.map boolifyCell
  else cells

/-- `pd.to_datetime(_, errors='coerce')` on one cell.  Non-text input only
arises for columns outside the store's own output (an all-numeric date
column); the coercion is modelled as missing there. -/
def toDatetimeCell : Cell → Cell
  | .s v =>
    match parseDate v with
    | some d => .date d
    | none => .nan
  | .date d => .date d
  | _ => .nan

/-- `df.fillna("")` on one cell. -/
def fillnaCell : Cell → Cell
  | .nan => .s ""
  | c => c

/-- `df.astype({"Cost": "float64"}, errors='ignore')`: the cast is attempted
on the whole column and on ANY failure the original column is returned
unchanged — values are never defaulted.  (A bool cost column would cast too;
it cannot arise from this store's files and is modelled as a failure.) -/
def astypeFloatColumn (cells : List Cell) : List Cell :=
  if cells.all (fun c =>
      match c with
      | .num _ => true
      | .numRaw _ => true
      | .nan => true
      | .s v => isPyFloat v.data
      | _ => false) then
    cells.map numifyCell
  else cells

/-- A text column through `load_assets`: `read_csv` then `fillna("")`. -/
def loadTextColumn (raws : List String) : List Cell :=
  (readColumn raws).map fillnaCell

/-- A date column through `load_assets` (src/app.py:87-92):
`read_csv`, `to_datetime(errors='coerce')`, then `fillna("")`. -/
def loadDateColumn (raws : List String) : List Cell :=
  ((readColumn raws).map toDatetimeCell).map fillnaCell

/-- The `Cost` column through `load_assets` (src/app.py:85-93):
`read_csv`, `fillna("")`, then `astype({"Cost": "float64"}, errors='ignore')`. -/
def loadCostColumn (raws : List String) : List Cell :=
  astypeFloatColumn ((readColumn raws).map fillnaCell)

/-- The loaded DataFrame, one cell column per field. -/
structure LoadedTable where
  asset_id : List Cell
  name : List Cell
  category : List Cell
  brand : List Cell
  model : List Cell
  serial_no : List Cell
  status : List Cell
  assigned_to : List Cell
  purchase_date : List Cell
  warranty_expiry : List Cell
  location : List Cell
  cost : List Cell
  notes : List Cell
  created_date : List Cell
  last_updated : List Cell
deriving DecidableEq, Repr

/-- `load_assets` (src/app.py:81-98). -/
def load_assets (t : RawTable) : LoadedTable where
  asset_id := loadTextColumn t.asset_id
  name := loadTextColumn t.name
  category := loadTextColumn t.category
  brand := loadTextColumn t.brand
  model := loadTextColumn t.model
  serial_no := loadTextColumn t.serial_no
  status := loadTextColumn t.status
  assigned_to := loadTextColumn t.assigned_to
  purchase_date := loadDateColumn t.purchase_date
  warranty_expiry := loadDateColumn t.warranty_expiry
  location := loadTextColumn t.location
  cost := loadCostColumn t.cost
  notes := loadTextColumn t.notes
  created_date := loadDateColumn t.created_date
  last_updated := loadDateColumn t.last_updated

/-- A text value that survives the CSV reader unchanged: empty (it comes back
as the empty string via `fillna`), or none of a missing-value token, a float
numeral, or a boolean token. -/
def safeText (s : String) : Bool :=
  s == "" ||
    (decide (s ∉ defaultNaValues) && !isPyFloat s.data && decide (s ∉ boolTokens))

/-- A record whose save-then-load image keeps every field value. -/
def safeRecord (r : AssetRecord) : Bool :=
  safeText r.asset_id && safeText r.name && safeText r.category &&
    safeText r.brand && safeText r.model && safeText r.serial_no &&
    safeText r.status && safeText r.assigned_to && safeText r.location &&
    safeText r.notes && validOptDate r.purchase_date &&
    validOptDate r.warranty_expiry && validOptDate r.created_date &&
    validOptDate r.last_updated

/-! ### Registration (src/app.py:251-312) -/

/-- The operator's form input to `render_add_asset`. -/
structure Candidate where
  asset_id : String
  name : String
  category : String
  brand : String
  model : String
  serial_no : String
  status : String
  assigned_to : String
  location : String
  notes : String
  cost : Money
  purchase : Date
  warranty : Date
deriving DecidableEq, Repr

/-- The error collection of `render_add_asset` (src/app.py:279-285): all
three checks run — `errors` accumulates every message whose check fired.
The duplicate test is stated here at record level (string membership),
which matches the program exactly when the loaded Asset ID column holds
text; the test as performed on a loaded frame, where an all-numeral column
has become int64 cells, is `register_errors_loaded` below. -/
def register_errors (df : List AssetRecord) (c : Candidate) : List String :=
  (if pyStrip c.asset_id = "" ∨ pyStrip c.name = "" ∨ pyStrip c.brand = "" ∨ c.category = ""
    then ["Required fields missing"] else [])
  ++ (if pyStrip c.asset_id ∈ df.map (·.asset_id)
    then ["Asset ID already exists"] else [])
  ++ (if dateLE c.warranty c.purchase
    then ["Warranty must exceed purchase date"] else [])

/-- The validation-and-append core of `render_add_asset`
(src/app.py:278-310): collect the error messages of the three checks; if any
fired, fail with them and leave the record set alone; otherwise append the
new record (dates stamped with today). -/
def register (df : List AssetRecord) (c : Candidate) (today : Date) :
    Except (List String) (List AssetRecord) :=
  if (register_errors df c).isEmpty then
    .ok (df ++ [{ asset_id := pyStrip c.asset_id
                  name := pyStrip c.name
                  category := c.category
                  brand := pyStrip c.brand
                  model := pyStrip c.model
                  serial_no := pyStrip c.serial_no
                  status := c.status
                  assigned_to := pyStrip c.assigned_to
                  purchase_date := some c.purchase
                  warranty_expiry := some c.warranty
                  location := pyStrip c.location
                  cost := c.cost
                  notes := pyStrip c.notes
                  created_date := some today
                  last_updated := some today }])
  else .error (register_errors df c)

/-- Python `==` between a loaded cell and a string, as the membership test
`asset_id.strip() in df["Asset ID"].values` applies it elementwise: only a
text cell can equal a string — an int64, float, bool, datetime or missing
cell never equals a `str`. -/
def pyEqCellStr (c : Cell) (s : String) : Bool :=
  match c with
  | .s v => v == s
  | _ => false

/-- `s in df["Asset ID"].values` over the loaded Asset ID column. -/
def idExists (idCol : List Cell) (s : String) : Bool :=
  idCol.any (fun c => pyEqCellStr c s)

/-- The three checks of `render_add_asset` as the running program performs
them on a loaded frame: the duplicate test (src/app.py:282) compares the
stripped candidate id against the loaded Asset ID column's cells with
Python `==`. -/
def register_errors_loaded (idCol : List Cell) (c : Candidate) : List String :=
  (if pyStrip c.asset_id = "" ∨ pyStrip c.name = "" ∨ pyStrip c.brand = "" ∨ c.category = ""
    then ["Required fields missing"] else [])
  ++ (if idExists idCol (pyStrip c.asset_id)
    then ["Asset ID already exists"] else [])
  ++ (if dateLE c.warranty c.purchase
    then ["Warranty must exceed purchase date"] else [])

/-- The per-field validation rules of the specification, for comparison with
what `register` reports (spec §3 invariants / §4.1 `register`): one violation
per rule, identified by field name. -/
def spec_rule_violations (df : List AssetRecord) (c : Candidate) : List String :=
  (if pyStrip c.asset_id = "" then ["asset_id: required"] else [])
  ++ (if pyStrip c.name = "" then ["name: required"] else [])
  ++ (if pyStrip c.brand = "" then ["brand: required"] else [])
  ++ (if c.category = "" then ["category: required"] else [])
  ++ (if pyStrip c.asset_id ∈ df.map (·.asset_id) then ["asset_id: duplicate"] else [])
  ++ (if dateLE c.warranty c.purchase then ["warranty_expiry: must exceed purchase_date"] else [])

/-! ### Filtering (src/app.py:314-330) -/

/-- Whether a loaded date column is object-dtype: `fillna("")` put an empty
string into it, which happens exactly when some row's date is missing. -/
def dateColObject (ods : List (Option Date)) : Bool :=
  ods.any (fun od => od.isNone)

/-- A date cell as `astype(str)` shows it: in a datetime64 column (no
missing value anywhere in the column) a midnight timestamp renders
date-only as `YYYY-MM-DD`; in an object column (some row's date missing)
`str(Timestamp)` renders `YYYY-MM-DD 00:00:00`, and the missing cells are
already `""`. -/
def dateFieldText (obj : Bool) (od : Option Date) : String :=
  match od with
  | none => ""
  | some d => if obj then fmtDateS d ++ " 00:00:00" else fmtDateS d

/-- The fields of a record as `df.astype(str)` shows them, in column order.
The rendering of a date field depends on its whole column (hence on the
record set), and a float cost renders as its decimal numeral. -/
def recordFields (rs : List AssetRecord) (r : AssetRecord) : List String :=
  [r.asset_id, r.name, r.category, r.brand, r.model, r.serial_no, r.status,
   r.assigned_to,
   dateFieldText (dateColObject (rs.map (·.purchase_date))) r.purchase_date,
   dateFieldText (dateColObject (rs.map (·.warranty_expiry))) r.warranty_expiry,
   r.location, moneyStr r.cost, r.notes,
   dateFieldText (dateColObject (rs.map (·.created_date))) r.created_date,
   dateFieldText (dateColObject (rs.map (·.last_updated))) r.last_updated]

/-- `row.str.lower().str.cat(sep=' ')` (src/app.py:326): each field value
lowercased, joined with single spaces. -/
def rowSearchText (rs : List AssetRecord) (r : AssetRecord) : List Char :=
  List.intercalate [' '] ((recordFields rs r).map (fun s => s.data.map lowerChar))

/-- The filter core of `render_manage_assets` (src/app.py:324-328): an
optional free-text filter (skipped when the query is empty, matching
case-insensitively against the joined field text of the full frame), then
an optional exact status filter (skipped for "All"). -/
def filter_assets (rs : List AssetRecord) (search status : String) :
    List AssetRecord :=
  let rs1 :=
    if search = "" then rs
    else rs.filter (fun r => containsSub (rowSearchText rs r) (search.data.map lowerChar))
  if status = "All" then rs1
  else rs1.filter (fun r => r.status == status)

/-! ### Dashboard warranty window (src/app.py:218-219)

Timestamps are day numbers; a record's warranty is `none` when the file had
no date.  `load_assets` has already run `fillna("")`, so a missing warranty
reaches the dashboard as the empty string in an object-dtype column, and
`df["Warranty Expiry"] < threshold` comparing `""` with the Timestamp
threshold raises TypeError — the metric only evaluates when every warranty
is present (then the column is datetime64 and `.dropna` is a no-op). -/

/-- `len(df[df["Warranty Expiry"] < today+90d].dropna(subset=["Warranty Expiry"]))`,
including the comparison's error path for missing warranties. -/
def expiring_soon_count (warranties : List (Option Int)) (today : Int) :
    Except String Nat :=
  if warranties.all (fun w => w.isSome) then
    .ok (((warranties.filter (fun w =>
        match w with
        | some d => decide (d < today + 90)
        | none => false)).filter (fun w => w.isSome)).length)
  else .error "TypeError"

/-- Modelled from the spec (§4.1 `aggregate`): the count of records whose
warranty date lies in the half-open window `[today, today + 90)`, records
with no warranty date excluded. -/
def spec_expiring_soon_count (warranties : List (Option Int)) (today : Int) : Nat :=
  (warranties.filter (fun w =>
    match w with
    | some d => decide (today ≤ d) && decide (d < today + 90)
    | none => false)).length

/-! ### The file operations of a save (src/app.py:100-116) -/

def assetsFile : String := "assets.csv"

/-- A file-system operation. -/
inductive FileOp where
  | write : String → RawTable → FileOp
  | rename : String → String → FileOp
deriving DecidableEq

def FileOp.isRename : FileOp → Bool
  | .rename _ _ => true
  | _ => false

/-- The file operations `save_assets` performs: a single `to_csv` straight to
the backing file (src/app.py:111) — no temporary file, no rename. -/
def save_assets_ops (rs : List AssetRecord) : List FileOp :=
  [.write assetsFile (save_assets rs)]

/-- The claim's shape for an atomic save: some write to a temporary path
followed by a rename onto the backing file. -/
def usesTempRename (ops : List FileOp) : Bool :=
  ops.any (fun op => op.isRename)

/-! ### Sample data for concrete evaluations -/

/-- An ordinary record, CSV-safe in every field. -/
def sampleRecord : AssetRecord where
  asset_id := "LAP001"
  name := "Office Laptop"
  category := "Laptop"
  brand := "Dell"
  model := "XPS 13"
  serial_no := "SN-001"
  status := "Available"
  assigned_to := ""
  purchase_date := some ⟨2024, 1, 5⟩
  warranty_expiry := some ⟨2025, 1, 5⟩
  location := "HQ"
  cost := ⟨10005, 1⟩
  notes := "spare unit"
  created_date := some ⟨2024, 1, 5⟩
  last_updated := some ⟨2024, 1, 5⟩

/-- A well-formed candidate matching `sampleRecord`'s identifier. -/
def sampleCandidate : Candidate where
  asset_id := "LAP001"
  name := "Office Laptop"
  category := "Laptop"
  brand := "Dell"
  model := "XPS 13"
  serial_no := "SN-001"
  status := "Available"
  assigned_to := ""
  location := "HQ"
  notes := "spare unit"
  cost := ⟨10005, 1⟩
  purchase := ⟨2024, 1, 5⟩
  warranty := ⟨2025, 1, 5⟩

/-- A candidate with two required fields missing at once. -/
def missingFieldsCandidate : Candidate :=
  { sampleCandidate with name := "", brand := "" }

/-- A candidate at the `warranty = purchase` boundary. -/
def boundaryCandidate : Candidate :=
  { sampleCandidate with purchase := ⟨2024, 1, 5⟩, warranty := ⟨2024, 1, 5⟩ }

/-- A record whose asset id is an all-numeral string. -/
def numericIdRecord : AssetRecord :=
  { sampleRecord with asset_id := "123" }

/-- A well-formed candidate carrying the same all-numeral id. -/
def numericIdCandidate : Candidate :=
  { sampleCandidate with asset_id := "123" }

instance {ε α : Type} [DecidableEq ε] [DecidableEq α] : DecidableEq (Except ε α) :=
  fun a b =>
    match a, b with
    | .ok x, .ok y =>
      if h : x = y then .isTrue (congrArg Except.ok h)
      else .isFalse (fun hh => h (Except.ok.inj hh))
    | .error x, .error y =>
      if h : x = y then .isTrue (congrArg Except.error h)
      else .isFalse (fun hh => h (Except.error.inj hh))
    | .ok _, .error _ => .isFalse (fun hh => Except.noConfusion hh)
    | .error _, .ok _ => .isFalse (fun hh => Except.noConfusion hh)

/-! ## Lemmas: digits, padding, and the scanning primitives -/

theorem digitVal_digitChar {d : Nat} (h : d < 10) : digitVal (digitChar d) = d := by
  interval_cases d <;> decide

theorem isDigitChar_digitChar {d : Nat} (h : d < 10) :
    isDigitChar (digitChar d) = true := by
  interval_cases d <;> decide

theorem foldl_digits (ds : List Nat) (h : ∀ d ∈ ds, d < 10) (acc : Nat) :
    List.foldl (fun a c => a * 10 + digitVal c) acc ((ds.reverse).map digitChar)
      = acc * 10 ^ ds.length + Nat.ofDigits 10 ds := by
  induction ds generalizing acc with
  | nil => simp [Nat.ofDigits]
  | cons d tl ih =>
    simp only [List.reverse_cons, List.map_append, List.foldl_append, List.map_cons,
      List.map_nil, List.foldl_cons, List.foldl_nil, List.length_cons]
    rw [ih (fun x hx => h x (List.mem_cons_of_mem _ hx)) acc,
      digitVal_digitChar (h d (List.mem_cons_self _ _)), Nat.ofDigits_cons]
    ring

theorem natDigitsAux_eq {n fuel : Nat} (hf : n ≤ fuel) :
    natDigitsAux fuel n = ((Nat.digits 10 n).reverse).map digitChar := by
  induction fuel generalizing n with
  | zero =>
    have hn : n = 0 := by omega
    subst hn
    simp [natDigitsAux]
  | succ fuel ih =>
    by_cases hn : n = 0
    · subst hn; simp [natDigitsAux]
    · unfold natDigitsAux
      rw [if_neg hn]
      have hdiv : n / 10 < n := Nat.div_lt_self (Nat.pos_of_ne_zero hn) (by norm_num)
      rw [ih (show n / 10 ≤ fuel by omega)]
      rw [Nat.digits_def' (by norm_num : (1 : Nat) < 10) (Nat.pos_of_ne_zero hn)]
      simp

theorem natDigits_eq (n : Nat) :
    natDigits n = if n = 0 then ['0'] else ((Nat.digits 10 n).reverse).map digitChar := by
  unfold natDigits
  by_cases h : n = 0
  · simp [h]
  · rw [if_neg h, if_neg h, natDigitsAux_eq le_rfl]

theorem readDigits_natDigits (n : Nat) : readDigits (natDigits n) = n := by
  by_cases h : n = 0
  · subst h; decide
  · rw [natDigits_eq, if_neg h]
    unfold readDigits
    rw [foldl_digits _ (fun d hd => Nat.digits_lt_base (by norm_num) hd) 0]
    simp [Nat.ofDigits_digits]

theorem natDigits_all_digit (n : Nat) : ∀ c ∈ natDigits n, isDigitChar c = true := by
  by_cases h : n = 0
  · subst h; decide
  · rw [natDigits_eq, if_neg h]
    intro c hc
    simp only [List.mem_map, List.mem_reverse] at hc
    obtain ⟨d, hd, rfl⟩ := hc
    exact isDigitChar_digitChar (Nat.digits_lt_base (by norm_num) hd)

theorem natDigits_ne_nil (n : Nat) : natDigits n ≠ [] := by
  by_cases h : n = 0
  · subst h; decide
  · rw [natDigits_eq, if_neg h]
    simp [Nat.digits_ne_nil_iff_ne_zero.mpr h]

theorem parseNat_natDigits (n : Nat) : parseNat (natDigits n) = some n := by
  unfold parseNat
  rw [if_pos ⟨natDigits_ne_nil n, by
    rw [List.all_eq_true]; exact fun c hc => natDigits_all_digit n c hc⟩]
  rw [readDigits_natDigits]

/-- C1: the credential round trip is broken in the code.  `save_users`
writes `list(users.values())` — only the verifier strings, dropping every
username — while `load_users` expects a list of objects with `username` and
`password_hash` keys; parsing the saved file therefore raises and the
handler falls back to the bootstrap identity.  Saving the mapping
`{"alice": "v1"}` and loading back returns `{"admin": <bootstrap verifier>}`,
not the saved mapping. -/
theorem c1_save_then_load_loses_users :
    save_users [("alice", "v1")] = .arr [.str "v1"]
    ∧ load_users (some (save_users [("alice", "v1")])) = default_users
    ∧ load_users (some (save_users [("alice", "v1")])) ≠ [("alice", "v1")] := by
  refine ⟨rfl, rfl, ?_⟩
  intro habs
  have h1 : default_users = [("alice", "v1")] := habs
  unfold default_users at h1
  have h2 := (List.cons.inj h1).1
  have h3 : "admin" = "alice" := congrArg Prod.fst h2
  exact absurd h3 (by decide)

/-! ## C2: the dashboard's expiring-soon window -/

/-- C2 counterexample: a record whose warranty expired yesterday
(`today - 1`) is counted by the dashboard (the filter is only
`warranty < today + 90d`), while the claimed half-open window
`[today, today + 90)` would not count it; and a record set containing a
record with no warranty date does not get that record excluded — the
comparison of the filled-in empty string with the Timestamp threshold
raises TypeError instead. -/
theorem c2_window_counterexample :
    expiring_soon_count [some (-1)] 0 = .ok 1
    ∧ spec_expiring_soon_count [some (-1)] 0 = 0
    ∧ expiring_soon_count [some 0, none] 0 = .error "TypeError" := by
  decide

/-- C2 (amended): when every record has a warranty date, the expiring-soon
figure counts exactly the records with a warranty date strictly before
`today + 90` days — the upper bound is exclusive (a warranty at today+89 is
counted, one at today+90 is not) but there is no lower bound: warranties
already expired before today are also counted.  When any record lacks a
warranty date, the metric does not exclude it: `fillna("")` has made the
cell an empty string in an object column and the `<` comparison with the
Timestamp threshold raises TypeError. -/
theorem c2_expiring_soon_characterization (ws : List (Option Int)) (today : Int) :
    expiring_soon_count ws today
      = if ws.all (fun w => w.isSome) then
          .ok (ws.countP (fun w =>
            match w with
            | some d => decide (d < today + 90)
            | none => false))
        else .error "TypeError" := by
  unfold expiring_soon_count
  rcases h : ws.all (fun w => w.isSome) with _ | _
  · simp only [h, Bool.false_eq_true, if_false]
  · simp only [h, if_true]
    congr 1
    rw [List.filter_filter, List.countP_eq_length_filter]
    congr 1
    apply List.filter_congr
    intro w hw
    cases w <;> simp

/-! ## C9: how a save touches the file system -/

/-- C9 counterexample: the save of the empty record set performs no rename
operation at all, so it is not a write-temp-then-rename replace. -/
theorem c9_no_rename_counterexample : usesTempRename (save_assets_ops []) = false := by
  decide

/-- C9 (amended): `save_assets` performs exactly one file operation — a
direct `to_csv` overwrite of the backing file with the serialized table —
and never writes a temporary file or renames; an interrupted write can leave
a partial file (exceptions are only caught and logged, src/app.py:114-116). -/
theorem c9_direct_overwrite (rs : List AssetRecord) :
    save_assets_ops rs = [.write assetsFile (save_assets rs)]
    ∧ usesTempRename (save_assets_ops rs) = false :=
  ⟨rfl, rfl⟩

/-! ## C10: unparseable cost values -/

/-- C4: the uniqueness claim fails on the running program.  A record whose
asset id is the all-numeral string `123` is saved as the numeral `123`; on
reload `read_csv` infers the all-numeral id column as int64, so the
duplicate test `"123" in df["Asset ID"].values` (src/app.py:282) compares
the candidate's string against integer cells and finds no match — all three
checks then pass for a second candidate with the very same id, `register`
appends it, and the duplicate is persisted.  (The same test over a text id
column does match, which is what the code intends.) -/
theorem c4_duplicate_check_defeated :
    numericIdRecord.asset_id = "123"
    ∧ pyStrip numericIdCandidate.asset_id = "123"
    ∧ (load_assets (save_assets [numericIdRecord])).asset_id = [Cell.num ⟨123, 0⟩]
    ∧ idExists (load_assets (save_assets [numericIdRecord])).asset_id
        (pyStrip numericIdCandidate.asset_id) = false
    ∧ register_errors_loaded (load_assets (save_assets [numericIdRecord])).asset_id
        numericIdCandidate = []
    ∧ idExists [Cell.s "123"] "123" = true := by
  decide

/-- C5: a candidate whose warranty does not strictly exceed its purchase
date — including the equality boundary — is rejected with the
warranty-order message. -/
theorem c5_register_warranty_order (df : List AssetRecord) (c : Candidate) (today : Date)
    (hle : dateLE c.warranty c.purchase = true) :
    ∃ es, register df c today = .error es ∧ "Warranty must exceed purchase date" ∈ es := by
  refine ⟨register_errors df c, ?_, ?_⟩
  · unfold register
    rw [if_neg ?_]
    intro habs
    rw [List.isEmpty_iff] at habs
    unfold register_errors at habs
    rw [if_pos hle] at habs
    rcases List.append_eq_nil.mp habs with ⟨h1, h2⟩
    exact List.cons_ne_nil _ _ h2
  · unfold register_errors
    rw [if_pos hle]
    simp [List.mem_append]

/-- C5 witness: the equality boundary `warranty = purchase` on the empty
record set. -/
theorem c5_register_warranty_order_witness :
    dateLE boundaryCandidate.warranty boundaryCandidate.purchase = true
    ∧ ∃ es, register [] boundaryCandidate ⟨2026, 2, 3⟩ = .error es
        ∧ "Warranty must exceed purchase date" ∈ es :=
  ⟨by decide,
    c5_register_warranty_order [] boundaryCandidate ⟨2026, 2, 3⟩ (by decide)⟩

/-- C6 counterexample: with name and brand both empty (and everything else
valid), two per-field rules of the specification are violated, but
`register` reports the single generic message `Required fields missing` —
one entry that names no field — so the error does not enumerate every
violated rule identified by field name. -/
theorem c6_single_generic_message_counterexample :
    register [] missingFieldsCandidate ⟨2026, 2, 3⟩ = .error ["Required fields missing"]
    ∧ (spec_rule_violations [] missingFieldsCandidate).length = 2
    ∧ (["Required fields missing"] : List String).length = 1 := by
  decide

/-- C6 (amended): the error list of a rejection is exactly the accumulated
messages of the three checks, each present if and only if its check fired —
all violations across the three checks are reported together, not only the
first — but the missing-required-fields check contributes one generic
message that does not name the individual field. -/
theorem c6_errors_characterization (df : List AssetRecord) (c : Candidate) (today : Date)
    (es : List String) (h : register df c today = .error es) :
    es = register_errors df c
    ∧ ("Required fields missing" ∈ es
        ↔ (pyStrip c.asset_id = "" ∨ pyStrip c.name = "" ∨ pyStrip c.brand = ""
            ∨ c.category = ""))
    ∧ ("Asset ID already exists" ∈ es ↔ pyStrip c.asset_id ∈ df.map (·.asset_id))
    ∧ ("Warranty must exceed purchase date" ∈ es ↔ dateLE c.warranty c.purchase = true) := by
  have hes : es = register_errors df c := by
    unfold register at h
    split at h
    · exact absurd h (by simp)
    · exact (Except.error.inj h).symm
  rw [hes]
  have n1 : "Required fields missing" ≠ "Asset ID already exists" := by decide
  have n2 : "Required fields missing" ≠ "Warranty must exceed purchase date" := by decide
  have n3 : "Asset ID already exists" ≠ "Required fields missing" := by decide
  have n4 : "Asset ID already exists" ≠ "Warranty must exceed purchase date" := by decide
  have n5 : "Warranty must exceed purchase date" ≠ "Required fields missing" := by decide
  have n6 : "Warranty must exceed purchase date" ≠ "Asset ID already exists" := by decide
  refine ⟨rfl, ?_, ?_, ?_⟩ <;>
  · unfold register_errors
    by_cases h1 : (pyStrip c.asset_id = "" ∨ pyStrip c.name = "" ∨ pyStrip c.brand = ""
        ∨ c.category = "") <;>
      by_cases h2 : pyStrip c.asset_id ∈ df.map (·.asset_id) <;>
        by_cases h3 : dateLE c.warranty c.purchase = true <;>
          simp [h1, h2, h3, n1, n2, n3, n4, n5, n6]

/-- C6 witness: the characterization at the concrete rejection of
`missingFieldsCandidate` on the empty record set. -/
theorem c6_errors_characterization_witness :
    (["Required fields missing"] : List String) = register_errors [] missingFieldsCandidate
    ∧ ("Required fields missing" ∈ (["Required fields missing"] : List String)
        ↔ (pyStrip missingFieldsCandidate.asset_id = ""
            ∨ pyStrip missingFieldsCandidate.name = ""
            ∨ pyStrip missingFieldsCandidate.brand = ""
            ∨ missingFieldsCandidate.category = ""))
    ∧ ("Asset ID already exists" ∈ (["Required fields missing"] : List String)
        ↔ pyStrip missingFieldsCandidate.asset_id ∈ ([] : List AssetRecord).map (·.asset_id))
    ∧ ("Warranty must exceed purchase date" ∈ (["Required fields missing"] : List String)
        ↔ dateLE missingFieldsCandidate.warranty missingFieldsCandidate.purchase = true) :=
  c6_errors_characterization [] missingFieldsCandidate ⟨2026, 2, 3⟩
    ["Required fields missing"] (by decide)

/-! ## C8: the management-page filter -/

/-- C8: the filter with the empty query and status "All" returns the record
sequence unchanged (unconditionally); and on Latin-1 text — where the
model's lowercasing coincides with `str.lower` — with CSV-stable fields
(whose `astype(str)` rendering is the field text itself, dates rendered per
their column's dtype), the filter keeps, in input order, exactly the records
whose space-joined lowercased field text contains the lowercased query
(vacuous for the empty query) AND whose status equals the selected status
exactly (vacuous for "All"). -/
theorem c8_filter_characterization :
    (∀ rs : List AssetRecord, filter_assets rs "" "All" = rs)
    ∧ (∀ (rs : List AssetRecord) (q st : String),
      latin1Str q = true →
      (∀ r ∈ rs, safeRecord r = true ∧ (recordFields rs r).all latin1Str = true) →
      filter_assets rs q st
        = rs.filter (fun r =>
            (decide (q = "") || containsSub (rowSearchText rs r) (q.data.map lowerChar))
            && (decide (st = "All") || r.status == st))) := by
  constructor
  · intro rs
    unfold filter_assets
    rw [if_pos rfl, if_pos rfl]
  · intro rs q st hq1 hscope
    unfold filter_assets
    by_cases hq : q = ""
    · rw [if_pos hq]
      by_cases hst : st = "All"
      · rw [if_pos hst]
        subst hq
        subst hst
        simp
      · rw [if_neg hst]
        apply List.filter_congr
        intro r hr
        simp [hq, hst]
    · rw [if_neg hq]
      by_cases hst : st = "All"
      · rw [if_pos hst]
        apply List.filter_congr
        intro r hr
        simp [hq, hst]
      · rw [if_neg hst]
        rw [List.filter_filter]
        apply List.filter_congr
        intro r hr
        simp [hq, hst, Bool.and_comm]

/-- C8 witness: the characterization at a concrete record set, query and
status, discharging the Latin-1/CSV-stable scope hypotheses. -/
theorem c8_filter_characterization_witness :
    filter_assets [sampleRecord] "laptop" "Available"
      = [sampleRecord].filter (fun r =>
          (decide (("laptop" : String) = "")
            || containsSub (rowSearchText [sampleRecord] r) ("laptop".data.map lowerChar))
          && (decide (("Available" : String) = "All") || r.status == "Available")) :=
  c8_filter_characterization.2 [sampleRecord] "laptop" "Available" (by decide) (by decide)

/-! ## C3: the record-store round trip -/

/-- Known-answer test: the FIPS 180-2 vector for the message `abc`. -/
theorem sha256Hex_kat_abc :
    sha256Hex (utf8Bytes "abc")
      = "ba7816bf8f01cfea414140de5dae2223b00361a396177a9cb410ff61f20015ad" := by
  decide

/-- Known-answer test: the empty message. -/
theorem sha256Hex_kat_empty :
    sha256Hex (utf8Bytes "")
      = "e3b0c44298fc1c149afbf4c8996fb92427ae41e4649b934ca495991b7852b855" := by
  decide

/-- C7: `hash_password` is by construction the lowercase hex SHA-256 digest
of `"itsm_salt_" ++ secret` (so two calls on the same secret agree); the
digest of the bootstrap secret is the fixed value below, reproducible by any
reimplementation; and authenticating `admin` with `Admin@2024` against the
mapping `load_users` returns for an absent credential store succeeds. -/
theorem c7_verifier_construction :
    (∀ s : String, hash_password s = sha256Hex (utf8Bytes ("itsm_salt_" ++ s)))
    ∧ hash_password "Admin@2024"
        = "dd86b051e3a76a80ddd6e4a8417e056479f114f8360bf67ba45ed8f461946be3"
    ∧ authenticate (load_users none) "admin" "Admin@2024" = true := by
  refine ⟨fun s => rfl, by decide, ?_⟩
  show authenticate default_users "admin" "Admin@2024" = true
  unfold authenticate default_users
  simp [List.lookup]

end ITSM
